import Mathlib

/-!
Verification of the Personal Voice helper core of the
Unified-Azure-Voice-Playground repository.

The definitions below are a shallow embedding of
`src/helpers/speech_personal_voice.py` and of the provisioning
orchestration in `src/app.py` (the `create_all` branch of `main`).
Python dicts holding JSON data are embedded as `JVal`; the result
dictionaries returned by the remote-call helpers are embedded as the
`Envelope` record whose optional fields are exactly the keys those
dictionaries can carry.  Exceptions are embedded explicitly: an injected
HTTP client returns `Except String HttpResponse` (a `.error` value is a
raised exception carrying `str(e)`), and `resp.json()` is a stored
`Except String JVal`.  Wall-clock time is embedded as an explicit list of
successive `time.time()` readings handed to the polling loop.
-/

namespace PersonalVoice

/-! ## Python string helpers -/

/-- Whitespace characters stripped by Python's `str.strip()`
(ASCII subset; the claims only ever depend on these). -/
def isPySpace (c : Char) : Bool :=
  c = ' ' ∨ c = '\t' ∨ c = '\n' ∨ c = '\r' ∨ c = '\x0b' ∨ c = '\x0c'

/-- Python `s.strip()`. -/
def pyStrip (s : String) : String :=
  ⟨((s.data.dropWhile isPySpace).reverse.dropWhile isPySpace).reverse⟩

/-- Truthiness test used by `if not s.strip():` — true iff the stripped
string is empty, i.e. every character is whitespace. -/
def strBlank (s : String) : Bool :=
  s.data.all isPySpace

/-- Python `a or b` on strings (empty string is falsy). -/
def pyOr (a b : String) : String :=
  if a = "" then b else a

/-- Python `", ".join(xs)` (embedded directly rather than through
`String.intercalate` so that its length arithmetic stays elementary). -/
def pyJoin (sep : String) : List String → String
  | [] => ""
  | [x] => x
  | x :: y :: rest => x ++ sep ++ pyJoin sep (y :: rest)

/-! ## JSON values (Python dict/list/str/... payloads) -/

/-- A Python value as held in parsed JSON bodies and config documents. -/
inductive JVal where
  | jnull
  | jbool (b : Bool)
  | jnum (n : Int)
  | jstr (s : String)
  | jarr (elems : List JVal)
  | jobj (fields : List (String × JVal))
deriving Inhabited

/-- First-match lookup in an embedded dict (Python dict keys are unique,
so first-match agrees with dict lookup). -/
def jlookup : List (String × JVal) → String → Option JVal
  | [], _ => none
  | (k, v) :: rest, key => if k = key then some v else jlookup rest key

/-- Python truthiness of an embedded value. -/
def jTruthy : JVal → Bool
  | .jnull => false
  | .jbool b => b
  | .jnum n => n ≠ 0
  | .jstr s => s ≠ ""
  | .jarr xs => !xs.isEmpty
  | .jobj kvs => !kvs.isEmpty

/-- Python `str(...)` of an embedded value.  Scalars follow CPython
exactly; the container rendering is a simplified repr that no theorem in
this development ever evaluates (the source only applies `str` to
scalar-valued fields). -/
def pyStr : JVal → String
  | .jnull => "None"
  | .jbool true => "True"
  | .jbool false => "False"
  | .jnum n => toString n
  | .jstr s => s
  | .jarr _ => "[...]"
  | .jobj _ => "\x7b...\x7d"

/-! ## Data model: `SpeakerProfile` and `PersonalVoiceConfig` -/

/-- `CUSTOM_VOICE_API_VERSION` (module constant). -/
def CUSTOM_VOICE_API_VERSION : String := "2024-02-01-preview"

/-- Dataclass `SpeakerProfile`. -/
structure SpeakerProfile where
  id : String
  name : String
  speaker_profile_id : String
  creation_date : String
deriving Repr, DecidableEq, Inhabited

/-- `SpeakerProfile.to_dict` (`asdict`, dataclass field order). -/
def SpeakerProfile.to_dict (p : SpeakerProfile) : JVal :=
  .jobj [("id", .jstr p.id), ("name", .jstr p.name),
         ("speaker_profile_id", .jstr p.speaker_profile_id),
         ("creation_date", .jstr p.creation_date)]

/-- `SpeakerProfile.from_dict`: each field is `str(data.get(key, ""))`.
In Python a non-dict argument raises (`p.get` is missing); that raise is
embedded as `none`. -/
def SpeakerProfile.from_dict : JVal → Option SpeakerProfile
  | .jobj fields =>
      some { id := pyStr ((jlookup fields "id").getD (.jstr ""))
             name := pyStr ((jlookup fields "name").getD (.jstr ""))
             speaker_profile_id :=
               pyStr ((jlookup fields "speaker_profile_id").getD (.jstr ""))
             creation_date :=
               pyStr ((jlookup fields "creation_date").getD (.jstr "")) }
  | _ => none

/-- Dataclass `PersonalVoiceConfig` with its declared defaults. -/
structure PersonalVoiceConfig where
  speech_key : String := ""
  speech_region : String := ""
  voice_name : String := "DragonLatestNeural"
  language : String := "en-US"
  profiles : List SpeakerProfile := []
  selected_profile_id : String := ""
  custom_voice_api_version : String := CUSTOM_VOICE_API_VERSION
  personal_voice_project_id : String := ""
  personal_voice_consent_id : String := ""
  personal_voice_id : String := ""
  personal_voice_consent_locale : String := "en-US"
  personal_voice_voice_talent_name : String := ""
  personal_voice_company_name : String := ""
deriving Repr, DecidableEq, Inhabited

/-- `PersonalVoiceConfig.get_selected_profile`: `None` for an empty
(falsy) selection, else the first profile whose `id` matches. -/
def PersonalVoiceConfig.get_selected_profile (c : PersonalVoiceConfig) :
    Option SpeakerProfile :=
  if c.selected_profile_id = "" then none
  else c.profiles.find? (fun p => p.id = c.selected_profile_id)

/-- The `missing` list accumulated by
`PersonalVoiceConfig.validate_for_synthesis`, in source order; the
method raises `ValueError` exactly when this list is non-empty. -/
def PersonalVoiceConfig.validationMissing (c : PersonalVoiceConfig) :
    List String :=
  (if strBlank c.speech_key then ["speech_key"] else []) ++
  (if strBlank c.speech_region then ["speech_region"] else []) ++
  (if strBlank c.selected_profile_id then
    ["selected_profile_id (no profile selected)"]
   else if c.get_selected_profile.isNone then
    ["selected_profile_id (profile not found)"]
   else []) ++
  (if strBlank c.voice_name then ["voice_name"] else []) ++
  (if strBlank c.language then ["language"] else [])

/-- Message of the `ValueError` raised by `validate_for_synthesis`. -/
def PersonalVoiceConfig.validationMessage (c : PersonalVoiceConfig) : String :=
  "Missing required config values: " ++ pyJoin ", " c.validationMissing

/-- The field list of `PersonalVoiceConfig.to_dict`: `asdict` in
dataclass field order, with `profiles` re-encoded through
`SpeakerProfile.to_dict`. -/
def PersonalVoiceConfig.to_dict_fields (c : PersonalVoiceConfig) :
    List (String × JVal) :=
  [("speech_key", .jstr c.speech_key),
         ("speech_region", .jstr c.speech_region),
         ("voice_name", .jstr c.voice_name),
         ("language", .jstr c.language),
         ("profiles", .jarr (c.profiles.map SpeakerProfile.to_dict)),
         ("selected_profile_id", .jstr c.selected_profile_id),
         ("custom_voice_api_version", .jstr c.custom_voice_api_version),
         ("personal_voice_project_id", .jstr c.personal_voice_project_id),
         ("personal_voice_consent_id", .jstr c.personal_voice_consent_id),
         ("personal_voice_id", .jstr c.personal_voice_id),
         ("personal_voice_consent_locale", .jstr c.personal_voice_consent_locale),
         ("personal_voice_voice_talent_name", .jstr c.personal_voice_voice_talent_name),
         ("personal_voice_company_name", .jstr c.personal_voice_company_name)]

/-- `PersonalVoiceConfig.to_dict`. -/
def PersonalVoiceConfig.to_dict (c : PersonalVoiceConfig) : JVal :=
  .jobj c.to_dict_fields

/-- Element-wise conversion of a profile list; a raise on any element
(non-dict) is `none`. -/
def mapFromDict : List JVal → Option (List SpeakerProfile)
  | [] => some []
  | x :: xs =>
      match SpeakerProfile.from_dict x, mapFromDict xs with
      | some p, some ps => some (p :: ps)
      | _, _ => none

/-- The comprehension `[SpeakerProfile.from_dict(p) for p in profiles_data]`.
Iterating a non-list (or hitting a non-dict element) raises in Python,
embedded as `none`. -/
def parseProfiles : JVal → Option (List SpeakerProfile)
  | .jarr xs => mapFromDict xs
  | _ => none

/-- Legacy-migration profile id `f"profile_{today.replace('-', '_')}"`. -/
def migratedProfileId (today : String) : String :=
  "profile_" ++ ⟨today.data.map (fun c => if c = '-' then '_' else c)⟩

/-- `PersonalVoiceConfig.from_dict` over an embedded dict.  `today` is
the value of `datetime.now().strftime("%Y-%m-%d")`.  A raise while
converting the profile list is embedded as `none`. -/
def PersonalVoiceConfig.from_dict (today : String)
    (fields : List (String × JVal)) : Option PersonalVoiceConfig := do
  let profiles_data := (jlookup fields "profiles").getD (.jarr [])
  let profiles0 ←
    if jTruthy profiles_data then parseProfiles profiles_data else pure []
  let profiles :=
    if profiles0.isEmpty ∧
        jTruthy ((jlookup fields "speaker_profile_id").getD .jnull) then
      [{ id := migratedProfileId today
         name := "Migrated Profile"
         speaker_profile_id :=
           pyStr ((jlookup fields "speaker_profile_id").getD (.jstr ""))
         creation_date := today }]
    else profiles0
  pure
    { speech_key := pyStr ((jlookup fields "speech_key").getD (.jstr ""))
      speech_region := pyStr ((jlookup fields "speech_region").getD (.jstr ""))
      voice_name :=
        pyStr ((jlookup fields "voice_name").getD (.jstr "DragonLatestNeural"))
      language := pyStr ((jlookup fields "language").getD (.jstr "en-US"))
      profiles := profiles
      selected_profile_id :=
        pyStr ((jlookup fields "selected_profile_id").getD
          (.jstr (match profiles.head? with
                  | some p => p.id
                  | none => "")))
      custom_voice_api_version :=
        pyStr ((jlookup fields "custom_voice_api_version").getD
          (.jstr CUSTOM_VOICE_API_VERSION))
      personal_voice_project_id :=
        pyStr ((jlookup fields "personal_voice_project_id").getD (.jstr ""))
      personal_voice_consent_id :=
        pyStr ((jlookup fields "personal_voice_consent_id").getD (.jstr ""))
      personal_voice_id :=
        pyStr ((jlookup fields "personal_voice_id").getD (.jstr ""))
      personal_voice_consent_locale :=
        pyStr ((jlookup fields "personal_voice_consent_locale").getD (.jstr "en-US"))
      personal_voice_voice_talent_name :=
        pyStr ((jlookup fields "personal_voice_voice_talent_name").getD (.jstr ""))
      personal_voice_company_name :=
        pyStr ((jlookup fields "personal_voice_company_name").getD (.jstr "")) }

/-- `PersonalVoiceConfig.add_profile`: appends a profile with a locally
generated id and auto-selects it, returning the updated config and the
new profile.  `today` stands for `datetime.now().strftime("%Y-%m-%d")`. -/
def PersonalVoiceConfig.add_profile (c : PersonalVoiceConfig) (today : String)
    (name : String) (speaker_profile_id : String) :
    PersonalVoiceConfig × SpeakerProfile :=
  let profile_id :=
    "profile_" ++ ⟨today.data.map (fun ch => if ch = '-' then '_' else ch)⟩
      ++ "_" ++ toString (c.profiles.length + 1)
  let profile : SpeakerProfile :=
    { id := profile_id
      name := pyOr name ("Profile " ++ today)
      speaker_profile_id := speaker_profile_id
      creation_date := today }
  ({ c with profiles := c.profiles ++ [profile]
            selected_profile_id := profile.id }, profile)

/-! ## Paths and audio content-type guessing -/

/-- Python `s.split(sep)` for a one-character separator (kept structural
so that concrete evaluations reduce). -/
def splitOnChar (sep : Char) : List Char → List (List Char)
  | [] => [[]]
  | c :: rest =>
      match splitOnChar sep rest with
      | [] => if c = sep then [[], []] else [[c]]
      | seg :: segs =>
          if c = sep then [] :: seg :: segs else (c :: seg) :: segs

/-- `pathlib.PurePosixPath(p).name`: the last path component, with
trailing slashes and bare `.` components dropped. -/
def pathName (p : String) : String :=
  match ((splitOnChar '/' p.data).map (fun l => (⟨l⟩ : String))
      |>.filter (fun seg => seg ≠ "" ∧ seg ≠ ".")).getLast? with
  | some seg => seg
  | none => ""

/-- `pathlib` `suffix` of a file name: `name[i:]` for the last dot index
`i` when `0 < i < len(name) - 1`, else the empty string. -/
def pySuffix (name : String) : String :=
  match name.data.reverse.findIdx? (fun c => c = '.') with
  | none => ""
  | some j =>
      if 1 ≤ j ∧ j + 1 < name.data.length then
        ⟨(name.data.reverse.take (j + 1)).reverse⟩
      else ""

/-- `_guess_audio_content_type`: lower-cased, dot-stripped extension of
the path's suffix decides the multipart content type. -/
def _guess_audio_content_type (path : String) : String :=
  let ext : String :=
    ⟨((pySuffix (pathName path)).data.map Char.toLower).dropWhile
      (fun c => c = '.')⟩
  if ext = "wav" then "audio/wav"
  else if ext = "mp3" ∨ ext = "mpeg" then "audio/mpeg"
  else "application/octet-stream"

/-! ## `urllib.parse.urlparse(...).path` and `_parse_operation_id` -/

/-- Characters allowed after the first character of a URL scheme. -/
def schemeChar (c : Char) : Bool :=
  c.isAlphanum ∨ c = '+' ∨ c = '-' ∨ c = '.'

/-- WHATWG C0-control-or-space predicate used by `urlsplit` to strip the
left end of the URL. -/
def isC0OrSpace (c : Char) : Bool :=
  c.toNat ≤ 0x20

/-- `urlparse(url).path`, embedded from CPython's `urlsplit` plus
`_splitparams`: strip leading C0/space, delete tab/CR/LF, split off a
well-formed scheme, split off a `//`-introduced netloc (raising
`ValueError`, embedded as `.error`, on a netloc with unbalanced square
brackets), drop the fragment then the query, and finally drop `;params`
from the last path segment.  Version-specific extra validation of
bracketed IPv6 hosts is not modelled. -/
def urlparsePath (url : String) : Except String String := do
  let u0 := (url.data.dropWhile isC0OrSpace).filter
    (fun c => c ≠ '\t' ∧ c ≠ '\r' ∧ c ≠ '\n')
  -- scheme
  let u1 :=
    match u0.findIdx? (fun c => c = ':') with
    | none => u0
    | some i =>
        let firstIsAsciiAlpha : Bool :=
          match u0.head? with
          | some c0 => decide (c0.toNat < 128) && c0.isAlpha
          | none => false
        if decide (0 < i) && firstIsAsciiAlpha &&
            ((u0.take i).drop 1).all schemeChar then
          u0.drop (i + 1)
        else u0
  -- netloc
  let u2 ←
    if u1.take 2 = ['/', '/'] then do
      let nl := (u1.drop 2).takeWhile (fun c => c ≠ '/' ∧ c ≠ '?' ∧ c ≠ '#')
      if (('[' ∈ nl) ∧ ¬ (']' ∈ nl)) ∨ ((']' ∈ nl) ∧ ¬ ('[' ∈ nl)) then
        throw "Invalid IPv6 URL"
      else
        pure ((u1.drop 2).dropWhile (fun c => c ≠ '/' ∧ c ≠ '?' ∧ c ≠ '#'))
    else pure u1
  -- fragment, then query
  let u3 := (u2.takeWhile (fun c => c ≠ '#')).takeWhile (fun c => c ≠ '?')
  -- params (`_splitparams`)
  let path :=
    match u3.reverse.findIdx? (fun c => c = '/') with
    | none =>
        match u3.findIdx? (fun c => c = ';') with
        | none => u3
        | some i => u3.take i
    | some jrev =>
        let k := u3.length - 1 - jrev
        match (u3.drop k).findIdx? (fun c => c = ';') with
        | none => u3
        | some d => u3.take (k + d)
  pure ⟨path⟩

/-- `[p for p in parsed.path.split("/") if p]`. -/
def pathSegments (path : String) : List String :=
  ((splitOnChar '/' path.data).map (fun l => (⟨l⟩ : String))).filter
    (fun seg => seg ≠ "")

/-- The segment following the first `"operations"` segment:
`parts.index("operations")` + bounds check. -/
def segmentAfterOperations : List String → Option String
  | [] => none
  | p :: rest => if p = "operations" then rest.head? else segmentAfterOperations rest

/-- `_parse_operation_id`.  A propagating `ValueError` from `urlparse`
is the `.error` case. -/
def _parse_operation_id (operation_location : Option String)
    (operation_id : Option String) : Except String (Option String) :=
  -- `if operation_id:` — `None` and `""` are both falsy.
  if (operation_id.getD "") ≠ "" then .ok operation_id
  else if (operation_location.getD "") = "" then .ok none
  else do
    let path ← urlparsePath (operation_location.getD "")
    pure (segmentAfterOperations (pathSegments path))

/-! ## HTTP model

The injected `http` module is embedded as a function from a request
description to `Except String HttpResponse`; `.error msg` is a raised
exception whose `str(e)` is `msg`.  `resp.json()` is stored on the
response as an `Except` for the same reason.  `http = none` embeds a
missing `requests` dependency (the `_import_requests()` fallback
returning `None`). -/

/-- One file part of a multipart upload: `(filename, handle, content_type)`
with the unobservable handle omitted. -/
structure FilePart where
  filename : String
  content_type : String
deriving Repr, DecidableEq

/-- An HTTP request as assembled by the helpers. -/
structure HttpRequest where
  method : String
  url : String
  params : List (String × String)
  headers : List (String × String)
  json_body : Option JVal := none
  data : List (String × String) := []
  files : List (String × FilePart) := []

/-- The observable pieces of a `requests` response used by the helpers. -/
structure HttpResponse where
  status_code : Int
  operation_location : Option String := none
  operation_id_header : Option String := none
  json : Except String JVal := .error "Expecting value"
  text : String := ""

/-- Behaviour of the injected HTTP client. -/
def HttpClient : Type := HttpRequest → Except String HttpResponse

/-- The result-envelope dict: the union of the keys the remote-call
helpers can place in their returned dicts (a key that a particular
return statement does not mention is `none`). -/
structure Envelope where
  ok : Bool
  error : Option String := none
  hint : Option String := none
  status_code : Option Int := none
  response : Option JVal := none
  project : Option JVal := none
  consent : Option JVal := none
  personal_voice : Option JVal := none
  operation : Option JVal := none
  speaker_profile_id : Option JVal := none
  operation_location : Option String := none
  operation_id : Option String := none
  note : Option String := none
  status : Option String := none
  profile_name : Option String := none

/-- `_custom_voice_endpoint`. -/
def _custom_voice_endpoint (region : String) : String :=
  "https://" ++ region ++ ".api.cognitive.microsoft.com"

/-- `(config.custom_voice_api_version or CUSTOM_VOICE_API_VERSION).strip()`. -/
def apiVersionOf (config : PersonalVoiceConfig) : String :=
  pyStrip (pyOr config.custom_voice_api_version CUSTOM_VOICE_API_VERSION)

/-- `_coerce_response_body`. -/
def _coerce_response_body : JVal → JVal
  | .jobj f => .jobj f
  | .jarr xs => .jarr xs
  | .jnull => .jobj [("raw", .jstr "")]
  | v => .jobj [("raw", .jstr (pyStr v))]

/-- `try: body = _coerce_response_body(resp.json()) except: {"raw": resp.text}`. -/
def responseBody (resp : HttpResponse) : JVal :=
  match resp.json with
  | .ok v => _coerce_response_body v
  | .error _ => .jobj [("raw", .jstr resp.text)]

/-- The `Missing dependency 'requests'` envelope. -/
def missingRequestsEnvelope : Envelope :=
  { ok := false
    error := some "Missing dependency 'requests'."
    hint := some "Add 'requests' to pyproject.toml dependencies and reinstall." }

/-! ## Remote-call helpers -/

/-- `custom_voice_create_project`. -/
def custom_voice_create_project (config : PersonalVoiceConfig)
    (project_id : String) (description : String) (display_name : String)
    (http : Option HttpClient) : Envelope :=
  if strBlank config.speech_key ∨ strBlank config.speech_region then
    { ok := false, error := some "Missing speech_key or speech_region." }
  else
    let api_version := apiVersionOf config
    if strBlank project_id then
      { ok := false, error := some "Project id is required." }
    else
      match http with
      | none => missingRequestsEnvelope
      | some client =>
          let url := _custom_voice_endpoint config.speech_region
            ++ "/customvoice/projects/" ++ project_id
          let payload : JVal := .jobj
            ([("kind", .jstr "PersonalVoice")]
              ++ (if ¬ strBlank description then
                    [("description", .jstr (pyStrip description))] else [])
              ++ (if ¬ strBlank display_name then
                    [("displayName", .jstr (pyStrip display_name))] else []))
          match client
            { method := "PUT", url := url
              params := [("api-version", api_version)]
              headers := [("Ocp-Apim-Subscription-Key", config.speech_key),
                          ("Content-Type", "application/json")]
              json_body := some payload } with
          | .error e => { ok := false, error := some e }
          | .ok resp =>
              let body := responseBody resp
              if resp.status_code ≠ 200 ∧ resp.status_code ≠ 201 then
                { ok := false, status_code := some resp.status_code
                  error := some "Project create failed.", response := some body }
              else
                { ok := true, project := some body
                  status_code := some resp.status_code }

/-- `custom_voice_get_consent`. -/
def custom_voice_get_consent (config : PersonalVoiceConfig)
    (consent_id : String) (http : Option HttpClient) : Envelope :=
  if strBlank config.speech_key ∨ strBlank config.speech_region then
    { ok := false, error := some "Missing speech_key or speech_region." }
  else if strBlank consent_id then
    { ok := false, error := some "Consent id is required." }
  else
    match http with
    | none => missingRequestsEnvelope
    | some client =>
        let url := _custom_voice_endpoint config.speech_region
          ++ "/customvoice/consents/" ++ consent_id
        match client
          { method := "GET", url := url
            params := [("api-version", apiVersionOf config)]
            headers := [("Ocp-Apim-Subscription-Key", config.speech_key)] } with
        | .error e => { ok := false, error := some e }
        | .ok resp =>
            let body := responseBody resp
            if resp.status_code ≠ 200 then
              { ok := false, status_code := some resp.status_code
                error := some "Get consent failed.", response := some body }
            else
              { ok := true, consent := some body
                status_code := some resp.status_code }

/-- The fall-through return of `custom_voice_post_consent_from_file`
after the 409 special case (Python reaches this code by falling
through the `409` block): failure with status and body outside
200/201, else the success envelope. -/
def consentUploadOutcome (resp : HttpResponse)
    (parsed_operation_id : Option String) : Envelope :=
  let body := responseBody resp
  if resp.status_code ≠ 200 ∧ resp.status_code ≠ 201 then
    { ok := false, status_code := some resp.status_code
      error := some "Consent upload failed."
      response := some body
      operation_location := resp.operation_location
      operation_id := parsed_operation_id }
  else
    { ok := true, consent := some body
      status_code := some resp.status_code
      operation_location := resp.operation_location
      operation_id := parsed_operation_id }

/-- `custom_voice_post_consent_from_file`.  `fs` is the file-existence
oracle behind `Path.exists`. -/
def custom_voice_post_consent_from_file (config : PersonalVoiceConfig)
    (consent_id : String) (project_id : String) (voice_talent_name : String)
    (company_name : String) (locale : String) (consent_audio_path : String)
    (description : String) (http : Option HttpClient)
    (fs : String → Bool) : Envelope :=
  if strBlank config.speech_key ∨ strBlank config.speech_region then
    { ok := false, error := some "Missing speech_key or speech_region." }
  else
    let api_version := apiVersionOf config
    if strBlank consent_id then
      { ok := false, error := some "Consent id is required." }
    else if strBlank project_id then
      { ok := false, error := some "Project id is required." }
    else if strBlank voice_talent_name then
      { ok := false, error := some "Voice talent name is required." }
    else if strBlank company_name then
      { ok := false, error := some "Company name is required." }
    else if strBlank locale then
      { ok := false, error := some "Locale is required." }
    else if ¬ fs consent_audio_path then
      { ok := false
        error := some ("Consent audio file not found: " ++ consent_audio_path) }
    else
      match http with
      | none => missingRequestsEnvelope
      | some client =>
          let url := _custom_voice_endpoint config.speech_region
            ++ "/customvoice/consents/" ++ consent_id
          let data := [("projectId", project_id),
                       ("voiceTalentName", voice_talent_name),
                       ("companyName", company_name),
                       ("locale", locale)]
            ++ (if ¬ strBlank description then
                  [("description", pyStrip description)] else [])
          match client
            { method := "POST", url := url
              params := [("api-version", api_version)]
              headers := [("Ocp-Apim-Subscription-Key", config.speech_key)]
              data := data
              files := [("audiodata",
                { filename := pathName consent_audio_path
                  content_type := _guess_audio_content_type consent_audio_path })] } with
          | .error e => { ok := false, error := some e }
          | .ok resp =>
              match _parse_operation_id resp.operation_location
                  resp.operation_id_header with
              | .error e => { ok := false, error := some e }
              | .ok parsed_operation_id =>
                  if resp.status_code = 409 then
                    let existing :=
                      custom_voice_get_consent config consent_id (some client)
                    if existing.ok then
                      { existing with
                        note :=
                          some "Consent already exists; using existing consent resource." }
                    else consentUploadOutcome resp parsed_operation_id
                  else consentUploadOutcome resp parsed_operation_id

/-- `custom_voice_post_personal_voice_from_files`. -/
def custom_voice_post_personal_voice_from_files (config : PersonalVoiceConfig)
    (personal_voice_id : String) (project_id : String) (consent_id : String)
    (prompt_audio_paths : List String) (description : String)
    (http : Option HttpClient) (fs : String → Bool) : Envelope :=
  if strBlank config.speech_key ∨ strBlank config.speech_region then
    { ok := false, error := some "Missing speech_key or speech_region." }
  else
    let api_version := apiVersionOf config
    if strBlank personal_voice_id then
      { ok := false, error := some "Personal voice id is required." }
    else if strBlank project_id then
      { ok := false, error := some "Project id is required." }
    else if strBlank consent_id then
      { ok := false, error := some "Consent id is required." }
    else if prompt_audio_paths.isEmpty then
      { ok := false, error := some "At least one prompt audio file is required." }
    else
      match prompt_audio_paths.find? (fun p => ¬ fs p) with
      | some p =>
          { ok := false, error := some ("Prompt audio file not found: " ++ p) }
      | none =>
          match http with
          | none => missingRequestsEnvelope
          | some client =>
              let url := _custom_voice_endpoint config.speech_region
                ++ "/customvoice/personalvoices/" ++ personal_voice_id
              let data := [("projectId", project_id), ("consentId", consent_id)]
                ++ (if ¬ strBlank description then
                      [("description", pyStrip description)] else [])
              let file_tuples := prompt_audio_paths.map (fun p =>
                ("audiodata",
                  ({ filename := pathName p
                     content_type := _guess_audio_content_type p } : FilePart)))
              match client
                { method := "POST", url := url
                  params := [("api-version", api_version)]
                  headers := [("Ocp-Apim-Subscription-Key", config.speech_key)]
                  data := data
                  files := file_tuples } with
              | .error e => { ok := false, error := some e }
              | .ok resp =>
                  match _parse_operation_id resp.operation_location
                      resp.operation_id_header with
                  | .error e => { ok := false, error := some e }
                  | .ok parsed_operation_id =>
                      let body := responseBody resp
                      if resp.status_code ≠ 200 ∧ resp.status_code ≠ 201 then
                        { ok := false, status_code := some resp.status_code
                          error := some "Personal voice creation failed."
                          response := some body
                          operation_location := resp.operation_location
                          operation_id := parsed_operation_id }
                      else
                        let speaker_profile_id : Option JVal :=
                          match body with
                          | .jobj f =>
                              match jlookup f "speakerProfileId" with
                              | some .jnull => none
                              | v => v
                          | _ => none
                        { ok := true, personal_voice := some body
                          speaker_profile_id := speaker_profile_id
                          status_code := some resp.status_code
                          operation_location := resp.operation_location
                          operation_id := parsed_operation_id }

/-- `custom_voice_get_operation`. -/
def custom_voice_get_operation (config : PersonalVoiceConfig)
    (operation_id : String) (http : Option HttpClient) : Envelope :=
  if strBlank config.speech_key ∨ strBlank config.speech_region then
    { ok := false, error := some "Missing speech_key or speech_region." }
  else if strBlank operation_id then
    { ok := false, error := some "Operation id is required." }
  else
    match http with
    | none => missingRequestsEnvelope
    | some client =>
        let url := _custom_voice_endpoint config.speech_region
          ++ "/customvoice/operations/" ++ operation_id
        match client
          { method := "GET", url := url
            params := [("api-version", apiVersionOf config)]
            headers := [("Ocp-Apim-Subscription-Key", config.speech_key)] } with
        | .error e => { ok := false, error := some e }
        | .ok resp =>
            let body := responseBody resp
            if resp.status_code ≠ 200 then
              { ok := false, status_code := some resp.status_code
                error := some "Get operation failed.", response := some body }
            else
              { ok := true, operation := some body
                status_code := some resp.status_code }

/-- `custom_voice_get_personal_voice`. -/
def custom_voice_get_personal_voice (config : PersonalVoiceConfig)
    (personal_voice_id : String) (http : Option HttpClient) : Envelope :=
  if strBlank config.speech_key ∨ strBlank config.speech_region then
    { ok := false, error := some "Missing speech_key or speech_region." }
  else if strBlank personal_voice_id then
    { ok := false, error := some "Personal voice id is required." }
  else
    match http with
    | none => missingRequestsEnvelope
    | some client =>
        let url := _custom_voice_endpoint config.speech_region
          ++ "/customvoice/personalvoices/" ++ personal_voice_id
        match client
          { method := "GET", url := url
            params := [("api-version", apiVersionOf config)]
            headers := [("Ocp-Apim-Subscription-Key", config.speech_key)] } with
        | .error e => { ok := false, error := some e }
        | .ok resp =>
            let body := responseBody resp
            if resp.status_code ≠ 200 then
              { ok := false, status_code := some resp.status_code
                error := some "Get personal voice failed.", response := some body }
            else
              let speaker_profile_id : Option JVal :=
                match body with
                | .jobj f =>
                    match jlookup f "speakerProfileId" with
                    | some .jnull => none
                    | v => v
                | _ => none
              { ok := true, personal_voice := some body
                speaker_profile_id := speaker_profile_id
                status_code := some resp.status_code }

/-! ## Operation poller

`custom_voice_wait_for_operation` reads the wall clock once at entry
(`started`) and once at the top of every loop iteration; those in-loop
readings are supplied as the `clock` list.  `time.sleep` only advances
the clock, which the next reading reflects, so it needs no separate
embedding.  The result is paired with the number of `GetOperation`
calls issued; `none` means the supplied clock readings were exhausted
before the loop returned. -/

/-- `op.get("status")` when the operation body is a dict holding a
string status (any other shape compares unequal to the terminal
strings, exactly as in Python). -/
def operationStatus (operation : Option JVal) : Option String :=
  match operation with
  | some (.jobj f) =>
      match jlookup f "status" with
      | some (.jstr s) => some s
      | _ => none
  | _ => none

/-- `custom_voice_wait_for_operation`. -/
def custom_voice_wait_for_operation (config : PersonalVoiceConfig)
    (operation_id : String) (timeout_s : Int) (http : Option HttpClient)
    (started : Int) : List Int → Option (Envelope × Nat)
  | [] => none
  | t :: rest =>
      if t - started > timeout_s then
        some ({ ok := false, error := some "Timed out waiting for operation."
                operation_id := some operation_id }, 0)
      else
        let result := custom_voice_get_operation config operation_id http
        if ¬ result.ok then some (result, 1)
        else
          let status := operationStatus result.operation
          if status = some "Succeeded" ∨ status = some "Failed" then
            some ({ ok := true, operation := result.operation, status := status
                    operation_id := some operation_id }, 1)
          else
            match custom_voice_wait_for_operation config operation_id timeout_s
                http started rest with
            | none => none
            | some (env, n) => some (env, n + 1)

/-! ## Config persistence -/

/-- `_first_env` inside `load_personal_voice_config`; `env` is
`os.environ.get`. -/
def firstEnv (env : String → Option String) : List String → String
  | [] => ""
  | n :: rest =>
      let value := (env n).getD ""
      if value ≠ "" ∧ ¬ strBlank value then pyStrip value else firstEnv env rest

/-- `_apply_env_defaults`: fill only blank key/region from the
environment. -/
def applyEnvDefaults (env : String → Option String)
    (cfg : PersonalVoiceConfig) : PersonalVoiceConfig :=
  let cfg1 :=
    if strBlank cfg.speech_key then
      { cfg with speech_key := firstEnv env ["AZURE_SPEECH_KEY", "SPEECH_KEY"] }
    else cfg
  if strBlank cfg1.speech_region then
    { cfg1 with
      speech_region := firstEnv env ["AZURE_SPEECH_REGION", "SPEECH_REGION"] }
  else cfg1

/-- `save_personal_voice_config`: the JSON document written to disk
(directory creation and the byte-level rendering are not observable to
`load`, which sees the parsed value back). -/
def save_personal_voice_config (config : PersonalVoiceConfig) : JVal :=
  config.to_dict

/-- `load_personal_voice_config`.  `doc = none` embeds a missing file;
otherwise `doc` is the parsed JSON document (a file whose contents fail
`json.load` would raise, which no claim exercises).  `none` in the
result embeds a raise out of `from_dict`. -/
def load_personal_voice_config (doc : Option JVal)
    (env : String → Option String) (today : String) :
    Option PersonalVoiceConfig :=
  match doc with
  | none => some (applyEnvDefaults env {})
  | some (.jobj fields) =>
      (PersonalVoiceConfig.from_dict today fields).map (applyEnvDefaults env)
  | some _ => some (applyEnvDefaults env {})

/-! ## SSML builder -/

/-- `html.escape(s, quote=True)` character image.  CPython applies five
sequential `str.replace` calls starting with `&`; since no later
replacement string contains a character replaced afterwards, this equals
the per-character map below. -/
def escapeChar (c : Char) : List Char :=
  if c = '&' then "&amp;".data
  else if c = '<' then "&lt;".data
  else if c = '>' then "&gt;".data
  else if c = '"' then "&quot;".data
  else if c = '\'' then "&#x27;".data
  else [c]

/-- `html.escape` on character lists. -/
def xmlEscapeList (l : List Char) : List Char :=
  l.flatMap escapeChar

/-- `xml_escape` (alias of `html.escape` in the source). -/
def xml_escape (s : String) : String :=
  ⟨xmlEscapeList s.data⟩

/-- `build_personal_voice_ssml`. -/
def build_personal_voice_ssml (text : String) (speaker_profile_id : String)
    (voice_name : String) (language : String) : String :=
  let safe_text := xml_escape text
  let safe_profile := xml_escape speaker_profile_id
  let safe_voice := xml_escape voice_name
  let safe_lang := xml_escape language
  let inner := "<lang xml:lang='" ++ safe_lang ++ "'>" ++ safe_text ++ "</lang>"
  "<speak version='1.0' "
    ++ "xmlns='http://www.w3.org/2001/10/synthesis' "
    ++ "xml:lang='" ++ safe_lang ++ "' "
    ++ "xmlns:mstts='http://www.w3.org/2001/mstts'>"
    ++ "<voice name='" ++ safe_voice ++ "'>"
    ++ "<mstts:ttsembedding speakerProfileId='" ++ safe_profile ++ "'>"
    ++ inner
    ++ "</mstts:ttsembedding>"
    ++ "</voice>"
    ++ "</speak>"

/-! ### An XML reader for the produced document

The grammar below is exactly the document shape `build_personal_voice_ssml`
claims to emit: fixed tags, four single-quoted attribute values and one
text node.  Attribute values end at the next single quote, text ends at
the next `<`, and entity references are decoded by `unescapeList`; a
document in which an interpolated value leaked raw markup would either
fail to parse or round-trip to different field values. -/

/-- Decode the five escape entities (`html.unescape` restricted to the
entities `html.escape` emits). -/
def unescapeList : List Char → List Char
  | [] => []
  | c :: rest =>
      if c = '&' then
        if rest.take 4 = "amp;".data then '&' :: unescapeList (rest.drop 4)
        else if rest.take 3 = "lt;".data then '<' :: unescapeList (rest.drop 3)
        else if rest.take 3 = "gt;".data then '>' :: unescapeList (rest.drop 3)
        else if rest.take 5 = "quot;".data then '"' :: unescapeList (rest.drop 5)
        else if rest.take 5 = "#x27;".data then '\'' :: unescapeList (rest.drop 5)
        else c :: unescapeList rest
      else c :: unescapeList rest
termination_by l => l.length
decreasing_by
  all_goals simp [List.length_drop]
  all_goals omega

/-- Consume an expected literal, returning the remainder. -/
def expectLit : List Char → List Char → Option (List Char)
  | [], rest => some rest
  | _ :: _, [] => none
  | c :: cs, d :: ds => if c = d then expectLit cs ds else none

/-- Read an attribute value up to (and consuming) the closing single
quote. -/
def readAttrValue : List Char → Option (List Char × List Char)
  | [] => none
  | c :: cs =>
      if c = '\'' then some ([], cs)
      else
        match readAttrValue cs with
        | none => none
        | some (v, rest) => some (c :: v, rest)

/-- The decoded pieces of a parsed Personal-Voice SSML document. -/
structure SsmlParts where
  speakLang : String
  voiceName : String
  speakerProfileId : String
  innerLang : String
  text : String
deriving Repr, DecidableEq

/-- Parse a document of the fixed Personal-Voice SSML shape, decoding
every attribute value and the text node. -/
def parseSsml (s : String) : Option SsmlParts := do
  let r ← expectLit
    "<speak version='1.0' xmlns='http://www.w3.org/2001/10/synthesis' xml:lang='".data
    s.data
  let (langRaw, r) ← readAttrValue r
  let r ← expectLit
    " xmlns:mstts='http://www.w3.org/2001/mstts'><voice name='".data r
  let (voiceRaw, r) ← readAttrValue r
  let r ← expectLit "><mstts:ttsembedding speakerProfileId='".data r
  let (profileRaw, r) ← readAttrValue r
  let r ← expectLit "><lang xml:lang='".data r
  let (lang2Raw, r) ← readAttrValue r
  let r ← expectLit ">".data r
  let textRaw := r.takeWhile (fun c => c ≠ '<')
  let r := r.dropWhile (fun c => c ≠ '<')
  let r ← expectLit "</lang></mstts:ttsembedding></voice></speak>".data r
  if r.isEmpty then
    some { speakLang := ⟨unescapeList langRaw⟩
           voiceName := ⟨unescapeList voiceRaw⟩
           speakerProfileId := ⟨unescapeList profileRaw⟩
           innerLang := ⟨unescapeList lang2Raw⟩
           text := ⟨unescapeList textRaw⟩ }
  else none

/-- No raw markup character (`<`, `>`, `"`, `'`) occurs in a list. -/
def noRawMarkup (l : List Char) : Bool :=
  l.all (fun c => c ≠ '<' ∧ c ≠ '>' ∧ c ≠ '"' ∧ c ≠ '\'')

/-- Every `&` in the list starts one of the five escape entities (so no
ampersand is left unescaped). -/
def ampsEscaped : List Char → Bool
  | [] => true
  | c :: rest =>
      if c = '&' then
        if rest.take 4 = "amp;".data then ampsEscaped (rest.drop 4)
        else if rest.take 3 = "lt;".data then ampsEscaped (rest.drop 3)
        else if rest.take 3 = "gt;".data then ampsEscaped (rest.drop 3)
        else if rest.take 5 = "quot;".data then ampsEscaped (rest.drop 5)
        else if rest.take 5 = "#x27;".data then ampsEscaped (rest.drop 5)
        else false
      else ampsEscaped rest
termination_by l => l.length
decreasing_by
  all_goals simp [List.length_drop]
  all_goals omega

/-! ## Synthesis invoker

The Azure Speech SDK is embedded by the observable behaviour of
`synthesizer.speak_ssml_async(ssml).get()`: a function from the SSML to
an `Except` (a `.error` is a raised exception) producing the result's
`reason` and associated details.  `speechsdk = none` embeds the
missing-SDK import fallback.  Word-boundary event capture (a
float-valued debug log attached to the success dict) is not modelled;
no claim concerns it. -/

/-- `result.reason` of a synthesis call. -/
inductive SynthReason where
  | synthesizingAudioCompleted
  | canceled
  | other (name : String)
deriving Repr, DecidableEq

/-- The observable fields of the SDK result object. -/
structure SynthResult where
  reason : SynthReason
  result_id : Option String := none
  cancellation_reason : Option String := none
  error_details : Option String := none
deriving Repr, DecidableEq

/-- The speech engine behaviour injected through `speechsdk`. -/
def SpeechEngine : Type := String → Except String SynthResult

/-- Result dict of `synthesize_personal_voice_to_wave_file`. -/
structure SynthEnvelope where
  ok : Bool
  error : Option String := none
  hint : Option String := none
  output_file_path : Option String := none
  result_id : Option String := none
  cancellation_reason : Option String := none
  error_details : Option String := none
  ssml : Option String := none
deriving Repr, DecidableEq

/-- `synthesize_personal_voice_to_wave_file`, paired with the number of
speech-engine invocations it performs. -/
def synthesize_personal_voice_to_wave_file (text : String)
    (config : PersonalVoiceConfig) (output_file_path : String)
    (log_ssml_to_console : Bool) (speechsdk : Option SpeechEngine) :
    SynthEnvelope × Nat :=
  -- `config.validate_for_synthesis()` raises `ValueError` on a
  -- non-empty missing list; the catch-all turns it into `str(e)`.
  if config.validationMissing ≠ [] then
    ({ ok := false, error := some config.validationMessage }, 0)
  else if strBlank text then
    ({ ok := false, error := some "Text is empty." }, 0)
  else
    match config.get_selected_profile with
    | none => ({ ok := false, error := some "No speaker profile selected." }, 0)
    | some selected_profile =>
        match speechsdk with
        | none =>
            ({ ok := false
               error := some "Azure Speech SDK is not installed."
               hint := some
                 "Add dependency 'azure-cognitiveservices-speech' and restart the app." },
             0)
        | some engine =>
            let ssml := build_personal_voice_ssml text
              selected_profile.speaker_profile_id config.voice_name
              config.language
            match engine ssml with
            | .error e => ({ ok := false, error := some e }, 1)
            | .ok result =>
                match result.reason with
                | .synthesizingAudioCompleted =>
                    ({ ok := true
                       output_file_path := some output_file_path
                       result_id := result.result_id
                       ssml := if log_ssml_to_console then some ssml else none },
                     1)
                | .canceled =>
                    ({ ok := false
                       error := some "Speech synthesis canceled."
                       cancellation_reason := result.cancellation_reason
                       error_details := result.error_details
                       result_id := result.result_id
                       ssml := if log_ssml_to_console then some ssml else none },
                     1)
                | .other name =>
                    ({ ok := false
                       error := some ("Unexpected synthesis result reason: " ++ name)
                       result_id := result.result_id
                       ssml := if log_ssml_to_console then some ssml else none },
                     1)

/-! ## Provisioning orchestrator (`app.main`, the `create_all` branch)

`createPersonalVoiceFlow` embeds `src/app.py` lines 359–442: the four
dependent steps run after the widget values have been copied into `cfg`
(lines 300–312) and the uploaded audio written to `consent_path` /
`prompt_paths`.  `savedDoc` is `some d` exactly when
`save_personal_voice_config` ran (writing document `d`), `abortedAt`
records which step's failure branch returned early, and `lastResult`
is `st.session_state.pv_create_last_result`. -/

/-- The step whose failure branch ended the flow. -/
inductive FlowStep where
  | project
  | consent
  | personalVoice
  | waitOp
deriving Repr, DecidableEq

/-- Outcome of the create flow. -/
structure FlowResult where
  cfg : PersonalVoiceConfig
  savedDoc : Option JVal
  abortedAt : Option FlowStep
  lastResult : Envelope

/-- The `create_all` step sequence of `app.main`.  `none` means the
polling loop's clock readings were exhausted (the loop was still
running).  In `add_profile`, Python would pass a raw `None` when the
creation response carried no `speakerProfileId`; the coercion to a
string below is only exercised by claims whose payloads carry string
ids. -/
def createPersonalVoiceFlow (cfg : PersonalVoiceConfig)
    (project_id consent_id personal_voice_id consent_locale
      voice_talent_name company_name api_version : String)
    (consent_path : String) (prompt_paths : List String)
    (http : Option HttpClient) (fs : String → Bool)
    (started : Int) (clock : List Int) (today : String) : Option FlowResult :=
  let project_result :=
    custom_voice_create_project cfg project_id "" "" http
  if ¬ project_result.ok then
    some { cfg := cfg, savedDoc := none, abortedAt := some .project
           lastResult := project_result }
  else
    let consent_result := custom_voice_post_consent_from_file cfg consent_id
      project_id voice_talent_name company_name consent_locale consent_path
      "" http fs
    if ¬ consent_result.ok then
      some { cfg := cfg, savedDoc := none, abortedAt := some .consent
             lastResult := consent_result }
    else
      let pv_result := custom_voice_post_personal_voice_from_files cfg
        personal_voice_id project_id consent_id prompt_paths "" http fs
      if pv_result.ok then
        let speaker_profile_id := pv_result.speaker_profile_id
        let operation_id := pv_result.operation_id.getD ""
        match custom_voice_wait_for_operation cfg operation_id 300 http
            started clock with
        | none => none
        | some (wait_result, _) =>
            if wait_result.ok then
              let profile_name :=
                pyOr voice_talent_name ("Profile " ++ personal_voice_id)
              let spidStr :=
                match speaker_profile_id with
                | some (.jstr s) => s
                | some v => pyStr v
                | none => ""
              let cfg1 := (cfg.add_profile today profile_name spidStr).1
              let cfg2 := { cfg1 with
                custom_voice_api_version := api_version
                personal_voice_project_id := project_id
                personal_voice_consent_id := consent_id
                personal_voice_id := personal_voice_id
                personal_voice_consent_locale := consent_locale
                personal_voice_voice_talent_name := voice_talent_name
                personal_voice_company_name := company_name }
              some { cfg := cfg2
                     savedDoc := some (save_personal_voice_config cfg2)
                     abortedAt := none
                     lastResult :=
                       { ok := true
                         speaker_profile_id := speaker_profile_id
                         profile_name := some profile_name } }
            else
              some { cfg := cfg, savedDoc := none, abortedAt := some .waitOp
                     lastResult := wait_result }
      else
        some { cfg := cfg, savedDoc := none, abortedAt := some .personalVoice
               lastResult := pv_result }

/-! # Claim theorems -/

/-! ## C9 — audio content type from the file extension -/

/-- The content-type table in the amended claim's wording: the
lower-cased, dot-stripped extension alone decides the type, with both
`mp3` and `mpeg` mapped to `audio/mpeg`. -/
def specContentTypeForExt (ext : String) : String :=
  if ext = "wav" then "audio/wav"
  else if ext = "mp3" ∨ ext = "mpeg" then "audio/mpeg"
  else "application/octet-stream"

/-- The lower-cased, dot-stripped extension of a path. -/
def normalizedExt (path : String) : String :=
  ⟨((pySuffix (pathName path)).data.map Char.toLower).dropWhile
    (fun c => c = '.')⟩

/-- C9 (counterexample): the extension `.mpeg` is neither `.wav` nor
`.mp3`, yet the guessed content type is `audio/mpeg`, not
`application/octet-stream` as the claim states. -/
theorem C9_counterexample :
    _guess_audio_content_type "voice.mpeg" = "audio/mpeg" ∧
    ¬ _guess_audio_content_type "voice.mpeg" = "application/octet-stream" :=
  ⟨by decide, by decide⟩

/-- C9 (amended): the uploaded part's content type is determined solely
by the file extension (lower-cased, leading dots stripped): `wav` yields
`audio/wav`, `mp3` **or `mpeg`** yields `audio/mpeg`, and every other
extension yields `application/octet-stream`. -/
theorem C9_extension_table (path other : String) :
    _guess_audio_content_type path = specContentTypeForExt (normalizedExt path) ∧
    (normalizedExt path = normalizedExt other →
      _guess_audio_content_type path = _guess_audio_content_type other) := by
  have e1 : _guess_audio_content_type path
      = specContentTypeForExt (normalizedExt path) := rfl
  have e2 : _guess_audio_content_type other
      = specContentTypeForExt (normalizedExt other) := rfl
  exact ⟨e1, fun h => by rw [e1, e2, h]⟩

/-- C9 witness: evaluating the amended claim at `A.WAV` and `b/a.wav`
(same normalized extension). -/
theorem C9_extension_table_witness :
    _guess_audio_content_type "A.WAV"
      = specContentTypeForExt (normalizedExt "A.WAV") ∧
    _guess_audio_content_type "A.WAV" = _guess_audio_content_type "b/a.wav" :=
  ⟨(C9_extension_table "A.WAV" "b/a.wav").1,
   (C9_extension_table "A.WAV" "b/a.wav").2 (by decide)⟩

/-! ## C4 — `WaitForOperation` with timeout `0` -/

/-- C4: with `timeout_s = 0`, as soon as the first in-loop clock reading
exceeds the start time the poller returns the timed-out failure
envelope having issued zero `GetOperation` calls (and hence without
sleeping), whatever the (never-terminal) operation status would have
been. -/
theorem C4_wait_timeout_zero (config : PersonalVoiceConfig)
    (operation_id : String) (http : Option HttpClient) (started t : Int)
    (rest : List Int) (hadvance : started < t)
    (_hnonterminal :
      operationStatus (custom_voice_get_operation config operation_id http).operation
          ≠ some "Succeeded" ∧
      operationStatus (custom_voice_get_operation config operation_id http).operation
          ≠ some "Failed") :
    custom_voice_wait_for_operation config operation_id 0 http started (t :: rest) =
      some ({ ok := false, error := some "Timed out waiting for operation."
              operation_id := some operation_id }, 0) := by
  have h : t - started > 0 := by omega
  simp [custom_voice_wait_for_operation, h]

/-- C4 witness: a concrete zero-timeout call with an advancing clock. -/
theorem C4_wait_timeout_zero_witness :
    custom_voice_wait_for_operation {} "op-1" 0 none 0 [1] =
      some ({ ok := false, error := some "Timed out waiting for operation."
              operation_id := some "op-1" }, 0) :=
  C4_wait_timeout_zero {} "op-1" none 0 1 [] (by decide)
    ⟨by decide, by decide⟩

/-! ## C7 — legacy `speaker_profile_id` migration -/

/-- C7: loading a document with no (or an empty) `profiles` list and a
non-empty legacy `speaker_profile_id` string synthesizes exactly one
profile carrying that id, with the generated profile id and today's
date. -/
theorem C7_legacy_migration (fields : List (String × JVal)) (today v : String)
    (hprofiles : jlookup fields "profiles" = none ∨
      jlookup fields "profiles" = some (.jarr []))
    (hlegacy : jlookup fields "speaker_profile_id" = some (.jstr v))
    (hne : v ≠ "") :
    (PersonalVoiceConfig.from_dict today fields).map PersonalVoiceConfig.profiles =
      some [{ id := migratedProfileId today, name := "Migrated Profile"
              speaker_profile_id := v, creation_date := today }] := by
  unfold PersonalVoiceConfig.from_dict
  rcases hprofiles with h | h <;>
    simp [h, hlegacy, jTruthy, hne, pyStr]

/-- C7 witness: a concrete legacy document. -/
theorem C7_legacy_migration_witness :
    (PersonalVoiceConfig.from_dict "2026-10-12"
        [("speaker_profile_id", .jstr "legacy-spid")]).map
      PersonalVoiceConfig.profiles =
      some [{ id := "profile_2026_10_12", name := "Migrated Profile"
              speaker_profile_id := "legacy-spid", creation_date := "2026-10-12" }] := by
  have h := C7_legacy_migration [("speaker_profile_id", .jstr "legacy-spid")]
    "2026-10-12" "legacy-spid" (Or.inl rfl) rfl (by decide)
  have e : migratedProfileId "2026-10-12" = "profile_2026_10_12" := by decide
  rw [e] at h
  exact h

/-! ## C6 — save/load round-trip -/

theorem speakerProfile_from_dict_to_dict (p : SpeakerProfile) :
    SpeakerProfile.from_dict p.to_dict = some p := rfl

theorem mapFromDict_to_dict (ps : List SpeakerProfile) :
    mapFromDict (ps.map SpeakerProfile.to_dict) = some ps := by
  induction ps with
  | nil => rfl
  | cons p ps ih =>
      simp [mapFromDict, speakerProfile_from_dict_to_dict, ih]

theorem from_dict_to_dict (today : String) (cfg : PersonalVoiceConfig) :
    PersonalVoiceConfig.from_dict today cfg.to_dict_fields = some cfg := by
  unfold PersonalVoiceConfig.from_dict PersonalVoiceConfig.to_dict_fields
  rcases cfg with ⟨sk, sr, vn, lg, profiles, sel, av, f1, f2, f3, f4, f5, f6⟩
  cases profiles with
  | nil => simp [jlookup, jTruthy, pyStr]
  | cons p ps =>
      simp [jlookup, jTruthy, pyStr, parseProfiles, mapFromDict,
        speakerProfile_from_dict_to_dict, mapFromDict_to_dict]

theorem applyEnvDefaults_noop (env : String → Option String)
    (cfg : PersonalVoiceConfig) (hk : strBlank cfg.speech_key = false)
    (hr : strBlank cfg.speech_region = false) :
    applyEnvDefaults env cfg = cfg := by
  unfold applyEnvDefaults
  simp [hk, hr]

/-- A store whose `speech_key` is non-empty but whitespace-only. -/
def whitespaceKeyStore : PersonalVoiceConfig :=
  { speech_key := " ", speech_region := "eastus" }

/-- C6 (counterexample): a store whose `speech_key` is the non-empty
string `" "` does not survive the round-trip — on load the blank key is
replaced through the environment fallback (by `""` when no variable is
set), so the loaded store differs from the saved one. -/
theorem C6_counterexample :
    whitespaceKeyStore.speech_key ≠ "" ∧
    whitespaceKeyStore.speech_region ≠ "" ∧
    load_personal_voice_config
        (some (save_personal_voice_config whitespaceKeyStore))
        (fun _ => none) "2026-10-12" ≠ some whitespaceKeyStore := by
  refine ⟨by decide, by decide, by decide⟩

/-- C6 (amended): for every store whose `speech_key` and `speech_region`
contain a non-whitespace character (not merely "are non-empty" — a
whitespace-only value is overwritten by the environment fallback on
load), saving and loading back yields a store equal field for field to
the original, including every nested profile, the selection and the
in-flight provisioning-request fields, for any environment. -/
theorem C6_save_load_roundtrip (cfg : PersonalVoiceConfig)
    (env : String → Option String) (today : String)
    (hk : strBlank cfg.speech_key = false)
    (hr : strBlank cfg.speech_region = false) :
    load_personal_voice_config (some (save_personal_voice_config cfg)) env today
      = some cfg := by
  unfold load_personal_voice_config save_personal_voice_config
    PersonalVoiceConfig.to_dict
  simp [from_dict_to_dict, applyEnvDefaults_noop, hk, hr]

/-- A concrete populated store for the C6 witness. -/
def roundtripStore : PersonalVoiceConfig :=
  { speech_key := "k", speech_region := "eastus"
    profiles := [{ id := "profile_1", name := "Test Profile"
                   speaker_profile_id := "spid", creation_date := "2026-01-12" }]
    selected_profile_id := "profile_1"
    personal_voice_project_id := "p1"
    personal_voice_consent_id := "c1" }

/-- C6 witness: the round-trip at a concrete populated store. -/
theorem C6_save_load_roundtrip_witness :
    load_personal_voice_config (some (save_personal_voice_config roundtripStore))
        (fun _ => none) "2026-10-12" = some roundtripStore :=
  C6_save_load_roundtrip roundtripStore (fun _ => none) "2026-10-12"
    (by decide) (by decide)

/-! ## C8 — synthesis with no profile selected -/

theorem ne_empty_of_strBlank_false {s : String} (h : strBlank s = false) :
    s ≠ "" := by
  intro he
  subst he
  simp [strBlank] at h

theorem pyJoin_cons (sep a : String) (w : List String) (hw : w ≠ []) :
    pyJoin sep (a :: w) = a ++ sep ++ pyJoin sep w := by
  cases w with
  | nil => exact absurd rfl hw
  | cons b bs => rfl

/-- Replacing one entry of a joined list changes the joined length by
exactly the difference of the entry lengths. -/
theorem pyJoin_length_swap (sep x y : String) :
    ∀ A B : List String,
      (pyJoin sep (A ++ x :: B)).length + y.length
        = (pyJoin sep (A ++ y :: B)).length + x.length := by
  intro A
  induction A with
  | nil =>
      intro B
      cases B with
      | nil => simp [pyJoin]; omega
      | cons b bs => simp [pyJoin, String.length_append]; omega
  | cons a A ih =>
      intro B
      have hx : A ++ x :: B ≠ [] := by simp
      have hy : A ++ y :: B ≠ [] := by simp
      rw [List.cons_append, List.cons_append, pyJoin_cons _ _ _ hx,
        pyJoin_cons _ _ _ hy]
      have := ih B
      simp [String.length_append]
      omega

/-- C8: synthesizing with an empty `selected_profile_id` fails during
validation with the speech engine never invoked, and its error message
differs from the one produced when a (non-blank) selection matches no
stored profile — the two validation entries have different lengths. -/
theorem C8_synthesize_no_selection (cfg : PersonalVoiceConfig)
    (engine : Option SpeechEngine) (text out : String) (lg : Bool)
    (sid : String)
    (hsel : cfg.selected_profile_id = "")
    (hsid : strBlank sid = false)
    (hmiss : ∀ p ∈ cfg.profiles, p.id ≠ sid) :
    (synthesize_personal_voice_to_wave_file text cfg out lg engine).1.ok = false ∧
    (synthesize_personal_voice_to_wave_file text cfg out lg engine).2 = 0 ∧
    (synthesize_personal_voice_to_wave_file text cfg out lg engine).1.error
      = some cfg.validationMessage ∧
    (synthesize_personal_voice_to_wave_file text
        { cfg with selected_profile_id := sid } out lg engine).1.error
      = some ({ cfg with selected_profile_id := sid } :
          PersonalVoiceConfig).validationMessage ∧
    (synthesize_personal_voice_to_wave_file text cfg out lg engine).1.error
      ≠ (synthesize_personal_voice_to_wave_file text
          { cfg with selected_profile_id := sid } out lg engine).1.error := by
  -- Abbreviations for the five blocks of the missing list.
  set K := (if strBlank cfg.speech_key then ["speech_key"] else []) with hK
  set R := (if strBlank cfg.speech_region then ["speech_region"] else []) with hR
  set V := (if strBlank cfg.voice_name then ["voice_name"] else []) with hV
  set L := (if strBlank cfg.language then ["language"] else []) with hL
  set x1 := "selected_profile_id (no profile selected)" with hx1
  set x2 := "selected_profile_id (profile not found)" with hx2
  set cfg' : PersonalVoiceConfig := { cfg with selected_profile_id := sid }
    with hcfg'
  have hm1 : cfg.validationMissing = (K ++ R) ++ x1 :: (V ++ L) := by
    simp only [PersonalVoiceConfig.validationMissing, hsel]
    have : strBlank "" = true := rfl
    simp [this, List.append_assoc]
  have hfind : cfg'.get_selected_profile = none := by
    have hne : sid ≠ "" := ne_empty_of_strBlank_false hsid
    simp only [PersonalVoiceConfig.get_selected_profile, hcfg']
    rw [if_neg hne]
    rw [List.find?_eq_none]
    intro p hp
    simpa using hmiss p hp
  have hm2 : cfg'.validationMissing = (K ++ R) ++ x2 :: (V ++ L) := by
    simp only [PersonalVoiceConfig.validationMissing, hcfg']
    simp [hsid, hfind, hcfg', List.append_assoc, hK, hR, hV, hL]
  have hne1 : cfg.validationMissing ≠ [] := by
    rw [hm1]
    simp
  have hne2 : cfg'.validationMissing ≠ [] := by
    rw [hm2]
    simp
  have hs1 : synthesize_personal_voice_to_wave_file text cfg out lg engine
      = ({ ok := false, error := some cfg.validationMessage }, 0) := by
    unfold synthesize_personal_voice_to_wave_file
    rw [if_pos hne1]
  have hs2 : synthesize_personal_voice_to_wave_file text cfg' out lg engine
      = ({ ok := false, error := some cfg'.validationMessage }, 0) := by
    unfold synthesize_personal_voice_to_wave_file
    rw [if_pos hne2]
  refine ⟨by rw [hs1], by rw [hs1], by rw [hs1], by rw [hs2], ?_⟩
  rw [hs1, hs2]
  simp only [Option.some.injEq, ne_eq]
  intro heq
  have hlenmsg := congrArg String.length heq
  have hswap := pyJoin_length_swap ", " x1 x2 (K ++ R) (V ++ L)
  have hxlen : x1.length ≠ x2.length := by rw [hx1, hx2]; decide
  simp only [PersonalVoiceConfig.validationMessage, hm1, hm2,
    String.length_append] at hlenmsg
  omega

/-- A profile store for the C8 witness. -/
def c8Store : PersonalVoiceConfig :=
  { speech_key := "k", speech_region := "eastus"
    profiles := [{ id := "profile_1", name := "Test Profile"
                   speaker_profile_id := "spid", creation_date := "2026-01-12" }]
    selected_profile_id := "" }

/-- C8 witness: concrete store with no selection versus a dangling
selection `"missing_id"`. -/
theorem C8_synthesize_no_selection_witness :
    (synthesize_personal_voice_to_wave_file "Hello" c8Store "out.wav" false
        none).1.ok = false ∧
    (synthesize_personal_voice_to_wave_file "Hello" c8Store "out.wav" false
        none).2 = 0 ∧
    (synthesize_personal_voice_to_wave_file "Hello" c8Store "out.wav" false
        none).1.error
      ≠ (synthesize_personal_voice_to_wave_file "Hello"
          { c8Store with selected_profile_id := "missing_id" } "out.wav" false
          none).1.error := by
  have h := C8_synthesize_no_selection c8Store none "Hello" "out.wav" false
    "missing_id" rfl (by decide) (by decide)
  exact ⟨h.1, h.2.1, h.2.2.2.2⟩

/-! ## C10 — operation-id extraction -/

/-- `segmentAfterOperations` is exactly "the element after the *first*
`operations` segment, when one follows it": `parts.index` + bounds
check. -/
theorem segmentAfterOperations_spec (parts : List String) :
    segmentAfterOperations parts =
      if "operations" ∈ parts then
        parts.get? (parts.indexOf "operations" + 1)
      else none := by
  induction parts with
  | nil => simp [segmentAfterOperations]
  | cons p rest ih =>
      by_cases hp : p = "operations"
      · subst hp
        simp [segmentAfterOperations, List.indexOf_cons_self]
        cases rest <;> simp
      · simp [segmentAfterOperations, hp, Ne.symm hp, ih,
          List.indexOf_cons_ne _ hp, List.mem_cons]

/-- C10 (counterexample): with an Operation-Id header *present* but
empty, the Operation-Location header is still parsed (the result
depends on it), contradicting "only when the Operation-Id header is
absent is the Operation-Location URL parsed". -/
theorem C10_counterexample :
    _parse_operation_id
        (some "https://r.example.com/customvoice/operations/op123")
        (some "") = .ok (some "op123") ∧
    _parse_operation_id none (some "") = .ok none := ⟨rfl, rfl⟩

/-- C10 (amended): a *non-empty* Operation-Id value is returned
unchanged with Operation-Location ignored; when the Operation-Id header
is absent **or empty**, Operation-Location is parsed: `None` when it is
absent or empty, otherwise (when the URL parses without raising) the
result is the path segment immediately following the first
`operations` segment — `None` when there is no `operations` segment or
nothing follows it. -/
theorem C10_operation_id_precedence :
    (∀ (loc : Option String) (oid : String), oid ≠ "" →
      _parse_operation_id loc (some oid) = .ok (some oid)) ∧
    (∀ oid' : Option String, oid' = none ∨ oid' = some "" →
      _parse_operation_id none oid' = .ok none ∧
      _parse_operation_id (some "") oid' = .ok none ∧
      (∀ loc path : String, loc ≠ "" → urlparsePath loc = .ok path →
        _parse_operation_id (some loc) oid' =
          .ok (if "operations" ∈ pathSegments path then
                 (pathSegments path).get?
                   ((pathSegments path).indexOf "operations" + 1)
               else none))) := by
  constructor
  · intro loc oid hne
    simp [_parse_operation_id, hne]
  · intro oid' hoid
    have hempty : oid'.getD "" = "" := by
      rcases hoid with h | h <;> subst h <;> rfl
    refine ⟨?_, ?_, ?_⟩
    · simp [_parse_operation_id, hempty]
    · simp [_parse_operation_id, hempty]
    · intro loc path hloc hparse
      simp [_parse_operation_id, hempty, hloc, hparse,
        segmentAfterOperations_spec]

/-- C10 witness: a non-empty id wins over a location; with the id
absent, the same location parses to the segment after `operations`. -/
theorem C10_operation_id_precedence_witness :
    _parse_operation_id
        (some "https://eastus.api.cognitive.microsoft.com/customvoice/operations/op-pv-1?api-version=2024-02-01-preview")
        (some "op-9") = .ok (some "op-9") ∧
    _parse_operation_id
        (some "https://eastus.api.cognitive.microsoft.com/customvoice/operations/op-pv-1?api-version=2024-02-01-preview")
        none = .ok (some "op-pv-1") := by
  constructor
  · exact C10_operation_id_precedence.1
      (some "https://eastus.api.cognitive.microsoft.com/customvoice/operations/op-pv-1?api-version=2024-02-01-preview")
      "op-9" (by decide)
  · have h := (C10_operation_id_precedence.2 none (Or.inl rfl)).2.2
      "https://eastus.api.cognitive.microsoft.com/customvoice/operations/op-pv-1?api-version=2024-02-01-preview"
      "/customvoice/operations/op-pv-1" (by decide) rfl
    rw [h]
    rfl

/-! ## C2 — SSML builder: escaping and round-trip -/

theorem noRawMarkup_escapeChar (c : Char) : noRawMarkup (escapeChar c) = true := by
  unfold escapeChar noRawMarkup
  repeat' split
  all_goals simp_all

theorem noRawMarkup_append (a b : List Char) :
    noRawMarkup (a ++ b) = (noRawMarkup a && noRawMarkup b) :=
  List.all_append

theorem noRawMarkup_escape (l : List Char) :
    noRawMarkup (xmlEscapeList l) = true := by
  induction l with
  | nil => rfl
  | cons c rest ih =>
      rw [xmlEscapeList, List.flatMap_cons, noRawMarkup_append,
        noRawMarkup_escapeChar]
      simpa [xmlEscapeList] using ih

theorem quote_not_mem_escape (l : List Char) : '\'' ∉ xmlEscapeList l := by
  intro hmem
  have h := noRawMarkup_escape l
  rw [noRawMarkup, List.all_eq_true] at h
  have := h _ hmem
  simp at this

theorem lt_all_escape (l : List Char) :
    (xmlEscapeList l).all (fun c => c ≠ '<') = true := by
  rw [List.all_eq_true]
  intro c hmem
  have h := noRawMarkup_escape l
  rw [noRawMarkup, List.all_eq_true] at h
  have := h _ hmem
  simp_all

theorem xmlEscapeList_cons (c : Char) (rest : List Char) :
    xmlEscapeList (c :: rest) = escapeChar c ++ xmlEscapeList rest :=
  List.flatMap_cons ..

theorem ampsEscaped_amp (x : List Char) :
    ampsEscaped ('&' :: 'a' :: 'm' :: 'p' :: ';' :: x) = ampsEscaped x := by
  simp [ampsEscaped]

theorem ampsEscaped_lt (x : List Char) :
    ampsEscaped ('&' :: 'l' :: 't' :: ';' :: x) = ampsEscaped x := by
  simp [ampsEscaped]

theorem ampsEscaped_gt (x : List Char) :
    ampsEscaped ('&' :: 'g' :: 't' :: ';' :: x) = ampsEscaped x := by
  simp [ampsEscaped]

theorem ampsEscaped_quot (x : List Char) :
    ampsEscaped ('&' :: 'q' :: 'u' :: 'o' :: 't' :: ';' :: x) = ampsEscaped x := by
  simp [ampsEscaped]

theorem ampsEscaped_apos (x : List Char) :
    ampsEscaped ('&' :: '#' :: 'x' :: '2' :: '7' :: ';' :: x) = ampsEscaped x := by
  simp [ampsEscaped]

theorem ampsEscaped_cons_ne {c : Char} (h : c ≠ '&') (rest : List Char) :
    ampsEscaped (c :: rest) = ampsEscaped rest := by
  simp [ampsEscaped, h]

theorem ampsEscaped_escape (l : List Char) :
    ampsEscaped (xmlEscapeList l) = true := by
  induction l with
  | nil => simp [xmlEscapeList, ampsEscaped]
  | cons c rest ih =>
      rw [xmlEscapeList_cons]
      by_cases h1 : c = '&'
      · subst h1
        rw [show escapeChar '&' = "&amp;".data from rfl]
        simpa [ampsEscaped_amp] using ih
      · by_cases h2 : c = '<'
        · subst h2
          rw [show escapeChar '<' = "&lt;".data from rfl]
          simpa [ampsEscaped_lt] using ih
        · by_cases h3 : c = '>'
          · subst h3
            rw [show escapeChar '>' = "&gt;".data from rfl]
            simpa [ampsEscaped_gt] using ih
          · by_cases h4 : c = '"'
            · subst h4
              rw [show escapeChar '"' = "&quot;".data from rfl]
              simpa [ampsEscaped_quot] using ih
            · by_cases h5 : c = '\''
              · subst h5
                rw [show escapeChar '\'' = "&#x27;".data from rfl]
                simpa [ampsEscaped_apos] using ih
              · have he : escapeChar c = [c] := by
                  simp [escapeChar, h1, h2, h3, h4, h5]
                rw [he, List.singleton_append, ampsEscaped_cons_ne h1]
                exact ih

theorem unescapeList_amp (x : List Char) :
    unescapeList ('&' :: 'a' :: 'm' :: 'p' :: ';' :: x) = '&' :: unescapeList x := by
  simp [unescapeList]

theorem unescapeList_lt (x : List Char) :
    unescapeList ('&' :: 'l' :: 't' :: ';' :: x) = '<' :: unescapeList x := by
  simp [unescapeList]

theorem unescapeList_gt (x : List Char) :
    unescapeList ('&' :: 'g' :: 't' :: ';' :: x) = '>' :: unescapeList x := by
  simp [unescapeList]

theorem unescapeList_quot (x : List Char) :
    unescapeList ('&' :: 'q' :: 'u' :: 'o' :: 't' :: ';' :: x)
      = '"' :: unescapeList x := by
  simp [unescapeList]

theorem unescapeList_apos (x : List Char) :
    unescapeList ('&' :: '#' :: 'x' :: '2' :: '7' :: ';' :: x)
      = '\'' :: unescapeList x := by
  simp [unescapeList]

theorem unescapeList_cons_ne {c : Char} (h : c ≠ '&') (rest : List Char) :
    unescapeList (c :: rest) = c :: unescapeList rest := by
  simp [unescapeList, h]

theorem unescape_escape (l : List Char) :
    unescapeList (xmlEscapeList l) = l := by
  induction l with
  | nil => simp [xmlEscapeList, unescapeList]
  | cons c rest ih =>
      rw [xmlEscapeList_cons]
      by_cases h1 : c = '&'
      · subst h1
        rw [show escapeChar '&' = "&amp;".data from rfl]
        simpa [unescapeList_amp] using congrArg (List.cons '&') ih
      · by_cases h2 : c = '<'
        · subst h2
          rw [show escapeChar '<' = "&lt;".data from rfl]
          simpa [unescapeList_lt] using congrArg (List.cons '<') ih
        · by_cases h3 : c = '>'
          · subst h3
            rw [show escapeChar '>' = "&gt;".data from rfl]
            simpa [unescapeList_gt] using congrArg (List.cons '>') ih
          · by_cases h4 : c = '"'
            · subst h4
              rw [show escapeChar '"' = "&quot;".data from rfl]
              simpa [unescapeList_quot] using congrArg (List.cons '"') ih
            · by_cases h5 : c = '\''
              · subst h5
                rw [show escapeChar '\'' = "&#x27;".data from rfl]
                simpa [unescapeList_apos] using congrArg (List.cons '\'') ih
              · have he : escapeChar c = [c] := by
                  simp [escapeChar, h1, h2, h3, h4, h5]
                rw [he, List.singleton_append, unescapeList_cons_ne h1, ih]

theorem expectLit_append (a r : List Char) : expectLit a (a ++ r) = some r := by
  induction a with
  | nil => rfl
  | cons c cs ih => simpa [expectLit] using ih

theorem expectLit_self (a : List Char) : expectLit a a = some [] := by
  simpa using expectLit_append a []

theorem readAttrValue_append (v : List Char) (hv : '\'' ∉ v) (r : List Char) :
    readAttrValue (v ++ '\'' :: r) = some (v, r) := by
  induction v with
  | nil => simp [readAttrValue]
  | cons c cs ih =>
      have hc : c ≠ '\'' := fun h => hv (h ▸ List.mem_cons_self c cs)
      have hcs : '\'' ∉ cs := fun h => hv (List.mem_cons_of_mem c h)
      simp [readAttrValue, hc, ih hcs]

theorem takeWhile_ne_lt (t r : List Char)
    (ht : t.all (fun c => c ≠ '<') = true) :
    (t ++ '<' :: r).takeWhile (fun c => c ≠ '<') = t ∧
    (t ++ '<' :: r).dropWhile (fun c => c ≠ '<') = '<' :: r := by
  induction t with
  | nil => simp [List.takeWhile, List.dropWhile]
  | cons c cs ih =>
      rw [List.all_cons] at ht
      have h1 := Bool.and_elim_left ht
      have h2 := Bool.and_elim_right ht
      have := ih h2
      simp_all [List.takeWhile, List.dropWhile]

/-- C2: for every input tuple the builder's output parses back as the
fixed Personal-Voice SSML document whose `voice` element's `name`
attribute decodes to the input voice name and whose
`mstts:ttsembedding` element's `speakerProfileId` attribute decodes to
the input profile id (with the language and text recovered likewise),
and each of the four interpolated values is escaped: its interpolation
contains no raw `<`, `>`, `"` or `'` character, and every `&` in it
starts an escape entity. -/
theorem C2_build_ssml_roundtrip (text pid voice lang : String) :
    parseSsml (build_personal_voice_ssml text pid voice lang)
      = some { speakLang := lang, voiceName := voice, speakerProfileId := pid
               innerLang := lang, text := text } ∧
    (noRawMarkup (xml_escape text).data = true ∧
      ampsEscaped (xml_escape text).data = true) ∧
    (noRawMarkup (xml_escape pid).data = true ∧
      ampsEscaped (xml_escape pid).data = true) ∧
    (noRawMarkup (xml_escape voice).data = true ∧
      ampsEscaped (xml_escape voice).data = true) ∧
    (noRawMarkup (xml_escape lang).data = true ∧
      ampsEscaped (xml_escape lang).data = true) := by
  refine ⟨?_, ⟨noRawMarkup_escape _, ampsEscaped_escape _⟩,
    ⟨noRawMarkup_escape _, ampsEscaped_escape _⟩,
    ⟨noRawMarkup_escape _, ampsEscaped_escape _⟩,
    ⟨noRawMarkup_escape _, ampsEscaped_escape _⟩⟩
  case _ =>
    have hdata : (build_personal_voice_ssml text pid voice lang).data
        = "<speak version='1.0' xmlns='http://www.w3.org/2001/10/synthesis' xml:lang='".data
          ++ (xmlEscapeList lang.data ++ '\'' ::
            (" xmlns:mstts='http://www.w3.org/2001/mstts'><voice name='".data
          ++ (xmlEscapeList voice.data ++ '\'' ::
            ("><mstts:ttsembedding speakerProfileId='".data
          ++ (xmlEscapeList pid.data ++ '\'' ::
            ("><lang xml:lang='".data
          ++ (xmlEscapeList lang.data ++ '\'' ::
            (">".data
          ++ (xmlEscapeList text.data
          ++ "</lang></mstts:ttsembedding></voice></speak>".data))))))))) := by
      simp only [build_personal_voice_ssml, xml_escape, String.data_append,
        List.append_assoc]
      rfl
    unfold parseSsml
    rw [hdata]
    rw [expectLit_append]
    simp only [Option.bind_eq_bind, Option.some_bind]
    rw [readAttrValue_append _ (quote_not_mem_escape _)]
    simp only [Option.some_bind]
    rw [expectLit_append]
    simp only [Option.some_bind]
    rw [readAttrValue_append _ (quote_not_mem_escape _)]
    simp only [Option.some_bind]
    rw [expectLit_append]
    simp only [Option.some_bind]
    rw [readAttrValue_append _ (quote_not_mem_escape _)]
    simp only [Option.some_bind]
    rw [expectLit_append]
    simp only [Option.some_bind]
    rw [readAttrValue_append _ (quote_not_mem_escape _)]
    simp only [Option.some_bind]
    rw [expectLit_append]
    simp only [Option.some_bind]
    rw [(takeWhile_ne_lt (xmlEscapeList text.data)
        "/lang></mstts:ttsembedding></voice></speak>".data (lt_all_escape _)).1,
      (takeWhile_ne_lt (xmlEscapeList text.data)
        "/lang></mstts:ttsembedding></voice></speak>".data (lt_all_escape _)).2]
    rw [show ('<' :: "/lang></mstts:ttsembedding></voice></speak>".data)
        = "</lang></mstts:ttsembedding></voice></speak>".data from rfl]
    rw [expectLit_self]
    simp [unescape_escape]

/-! ## C3 — HTTP 409 on consent upload reuses the existing consent -/

/-- C3: when the consent POST answers 409 and the follow-up GetConsent
succeeds (HTTP 200), PostConsent returns GetConsent's success envelope
annotated with the reuse note, and the orchestrator does not abort at
the consent step. -/
theorem C3_consent_conflict_reuses_existing (config : PersonalVoiceConfig)
    (consent_id project_id voice_talent_name company_name consent_locale
      consent_path : String) (prompt_paths : List String)
    (personal_voice_id api_version today : String)
    (client : HttpClient) (fs : String → Bool)
    (postResp getResp : HttpResponse) (parsedId : Option String)
    (started : Int) (clock : List Int)
    (hkey : strBlank config.speech_key = false)
    (hregion : strBlank config.speech_region = false)
    (hcid : strBlank consent_id = false)
    (hpjid : strBlank project_id = false)
    (hvtn : strBlank voice_talent_name = false)
    (hcn : strBlank company_name = false)
    (hloc : strBlank consent_locale = false)
    (hfs : fs consent_path = true)
    (hpost : ∀ req : HttpRequest, req.method = "POST" → client req = .ok postResp)
    (h409 : postResp.status_code = 409)
    (hparse : _parse_operation_id postResp.operation_location
      postResp.operation_id_header = .ok parsedId)
    (hget : ∀ req : HttpRequest, req.method = "GET" → client req = .ok getResp)
    (hget200 : getResp.status_code = 200)
    (hproj : (custom_voice_create_project config project_id "" ""
      (some client)).ok = true) :
    custom_voice_post_consent_from_file config consent_id project_id
        voice_talent_name company_name consent_locale consent_path ""
        (some client) fs
      = { ok := true, consent := some (responseBody getResp)
          status_code := some getResp.status_code
          note := some "Consent already exists; using existing consent resource." } ∧
    (∀ r : FlowResult,
      createPersonalVoiceFlow config project_id consent_id personal_voice_id
          consent_locale voice_talent_name company_name api_version
          consent_path prompt_paths (some client) fs started clock today
        = some r →
      r.abortedAt ≠ some FlowStep.consent) := by
  have hgetc : custom_voice_get_consent config consent_id (some client)
      = { ok := true, consent := some (responseBody getResp)
          status_code := some getResp.status_code } := by
    unfold custom_voice_get_consent
    simp only [hkey, hregion, hcid]
    simp only [Bool.false_eq_true, or_self, if_false]
    rw [hget _ rfl]
    simp [hget200]
  have hpostc : custom_voice_post_consent_from_file config consent_id project_id
      voice_talent_name company_name consent_locale consent_path ""
      (some client) fs
      = { ok := true, consent := some (responseBody getResp)
          status_code := some getResp.status_code
          note := some "Consent already exists; using existing consent resource." } := by
    unfold custom_voice_post_consent_from_file
    simp only [hkey, hregion, hcid, hpjid, hvtn, hcn, hloc, hfs]
    simp only [Bool.false_eq_true, or_self, if_false]
    rw [hpost _ rfl]
    simp [hparse, h409, hgetc]
  refine ⟨hpostc, ?_⟩
  intro r hr
  unfold createPersonalVoiceFlow at hr
  rw [hpostc] at hr
  set pv := custom_voice_post_personal_voice_from_files config personal_voice_id
    project_id consent_id prompt_paths "" (some client) fs with hpvdef
  simp [hproj] at hr
  by_cases hpv : pv.ok
  · simp only [hpv, if_true] at hr
    cases hw : custom_voice_wait_for_operation config (pv.operation_id.getD "")
        300 (some client) started clock with
    | none =>
        rw [hw] at hr
        simp at hr
    | some we =>
        obtain ⟨wenv, wn⟩ := we
        rw [hw] at hr
        by_cases hwok : wenv.ok
        · simp only [hwok, if_true, Option.some.injEq] at hr
          subst hr
          simp
        · simp only [hwok, Bool.false_eq_true, if_false,
            Option.some.injEq] at hr
          subst hr
          simp
  · simp only [hpv, Bool.false_eq_true, if_false, Option.some.injEq] at hr
    subst hr
    simp

/-- Concrete credentials for the C3 witness. -/
def c3Cfg : PersonalVoiceConfig := { speech_key := "k", speech_region := "eastus" }

/-- 409 response for the consent POST, matching the provider's
conflict answer. -/
def c3PostResp : HttpResponse :=
  { status_code := 409
    json := .ok (.jobj [("raw", .jstr "Resource Id already exists.")]) }

/-- 200 response for the consent GET. -/
def c3GetResp : HttpResponse :=
  { status_code := 200
    json := .ok (.jobj [("id", .jstr "c1"), ("status", .jstr "Succeeded")]) }

/-- 201 response for the project PUT. -/
def c3PutResp : HttpResponse :=
  { status_code := 201, json := .ok (.jobj [("id", .jstr "p1")]) }

/-- Client for the C3 witness: consent conflicts, everything else
succeeds. -/
def c3Client : HttpClient := fun req =>
  if req.method = "POST" then .ok c3PostResp
  else if req.method = "GET" then .ok c3GetResp
  else .ok c3PutResp

/-- C3 witness: a concrete 409-then-reuse run. -/
theorem C3_consent_conflict_reuses_existing_witness :
    custom_voice_post_consent_from_file c3Cfg "c1" "p1" "Jessica Smith"
        "Contoso" "en-US" "consent.wav" "" (some c3Client) (fun _ => true)
      = { ok := true, consent := some (responseBody c3GetResp)
          status_code := some c3GetResp.status_code
          note := some "Consent already exists; using existing consent resource." } ∧
    (∀ r : FlowResult,
      createPersonalVoiceFlow c3Cfg "p1" "c1" "pv1" "en-US" "Jessica Smith"
          "Contoso" "2024-02-01-preview" "consent.wav" ["p1.wav"]
          (some c3Client) (fun _ => true) 0 [1] "2026-10-12" = some r →
      r.abortedAt ≠ some FlowStep.consent) :=
  C3_consent_conflict_reuses_existing c3Cfg "c1" "p1" "Jessica Smith" "Contoso"
    "en-US" "consent.wav" ["p1.wav"] "pv1" "2024-02-01-preview" "2026-10-12"
    c3Client (fun _ => true) c3PostResp c3GetResp none 0 [1]
    (by decide) (by decide) (by decide) (by decide) (by decide) (by decide)
    (by decide) rfl
    (fun req h => by simp [c3Client, h])
    rfl rfl
    (fun req h => by simp [c3Client, h])
    rfl rfl

/-! ## C5 — envelope discipline of the remote-call helpers -/

/-- A failure envelope always carries an error message. -/
def envelopeSane (e : Envelope) : Prop :=
  e.ok = false → e.error ≠ none

/-- A client that raises the same exception on every call. -/
def raisingClient (msg : String) : HttpClient := fun _ => .error msg

/-- A client answering 200 with a body `resp.json()` cannot parse. -/
def unparseableOkClient : HttpClient := fun _ =>
  .ok { status_code := 200
        json := .error "Expecting value: line 1 column 1 (char 0)"
        text := "<html>not json</html>" }

theorem custom_voice_create_project_sane (config : PersonalVoiceConfig)
    (project_id description display_name : String) (http : Option HttpClient) :
    envelopeSane
      (custom_voice_create_project config project_id description display_name
        http) := by
  unfold envelopeSane custom_voice_create_project
  intro h
  simp only [] at h
  repeat' split at h
  all_goals simp_all [missingRequestsEnvelope]

theorem custom_voice_get_consent_sane (config : PersonalVoiceConfig)
    (consent_id : String) (http : Option HttpClient) :
    envelopeSane (custom_voice_get_consent config consent_id http) := by
  unfold envelopeSane custom_voice_get_consent
  intro h
  simp only [] at h
  repeat' split at h
  all_goals simp_all [missingRequestsEnvelope]

theorem consentUploadOutcome_sane (resp : HttpResponse)
    (parsed : Option String) :
    envelopeSane (consentUploadOutcome resp parsed) := by
  intro h
  unfold consentUploadOutcome at h ⊢
  simp only [] at h ⊢
  split at h
  all_goals simp_all

theorem custom_voice_post_consent_from_file_sane (config : PersonalVoiceConfig)
    (consent_id project_id voice_talent_name company_name locale
      consent_audio_path description : String) (http : Option HttpClient)
    (fs : String → Bool) :
    envelopeSane
      (custom_voice_post_consent_from_file config consent_id project_id
        voice_talent_name company_name locale consent_audio_path description
        http fs) := by
  unfold envelopeSane custom_voice_post_consent_from_file
  intro h
  simp only [] at h
  repeat' split at h
  all_goals simp_all [missingRequestsEnvelope]
  all_goals apply consentUploadOutcome_sane
  all_goals assumption

theorem custom_voice_post_personal_voice_from_files_sane
    (config : PersonalVoiceConfig)
    (personal_voice_id project_id consent_id : String)
    (prompt_audio_paths : List String) (description : String)
    (http : Option HttpClient) (fs : String → Bool) :
    envelopeSane
      (custom_voice_post_personal_voice_from_files config personal_voice_id
        project_id consent_id prompt_audio_paths description http fs) := by
  unfold envelopeSane custom_voice_post_personal_voice_from_files
  intro h
  simp only [] at h
  repeat' split at h
  all_goals simp_all [missingRequestsEnvelope]

theorem custom_voice_get_operation_sane (config : PersonalVoiceConfig)
    (operation_id : String) (http : Option HttpClient) :
    envelopeSane (custom_voice_get_operation config operation_id http) := by
  unfold envelopeSane custom_voice_get_operation
  intro h
  simp only [] at h
  repeat' split at h
  all_goals simp_all [missingRequestsEnvelope]

theorem custom_voice_get_personal_voice_sane (config : PersonalVoiceConfig)
    (personal_voice_id : String) (http : Option HttpClient) :
    envelopeSane
      (custom_voice_get_personal_voice config personal_voice_id http) := by
  unfold envelopeSane custom_voice_get_personal_voice
  intro h
  simp only [] at h
  repeat' split at h
  all_goals simp_all [missingRequestsEnvelope]

/-- C5 (counterexample): an exception *does* occur inside CreateProject
— the 200 response's body is unparseable, so `resp.json()` raises — yet
the returned envelope has `ok = true` and no error: the parse failure
is absorbed into a `raw` body, not converted to `{ok: false}` as the
claim (and spec sentence) state. -/
theorem C5_counterexample :
    (custom_voice_create_project
        { speech_key := "k", speech_region := "eastus" } "p1" "" ""
        (some unparseableOkClient)).ok = true ∧
    (custom_voice_create_project
        { speech_key := "k", speech_region := "eastus" } "p1" "" ""
        (some unparseableOkClient)).error = none ∧
    (custom_voice_create_project
        { speech_key := "k", speech_region := "eastus" } "p1" "" ""
        (some unparseableOkClient)).project
      = some (.jobj [("raw", .jstr "<html>not json</html>")]) :=
  ⟨rfl, rfl, rfl⟩

/-- C5 (amended): every remote-call function returns an envelope for
*every* behaviour of the injected client — raising an arbitrary
exception or returning an unparseable body included — and no exception
propagates (the functions are total over the full client space).
Whenever `ok` is false an error message is present, and when the HTTP
call itself raises, the envelope is exactly
`{ok: false, error: str(e)}`.  An unparseable response body, however,
is replaced by a `{raw: text}` body with `ok` still decided by the
status code alone (it does not force `ok: false`). -/
theorem C5_envelope_discipline :
    (∀ config project_id description display_name http,
      envelopeSane (custom_voice_create_project config project_id description
        display_name http)) ∧
    (∀ config consent_id project_id voice_talent_name company_name locale
        consent_audio_path description http fs,
      envelopeSane (custom_voice_post_consent_from_file config consent_id
        project_id voice_talent_name company_name locale consent_audio_path
        description http fs)) ∧
    (∀ config consent_id http,
      envelopeSane (custom_voice_get_consent config consent_id http)) ∧
    (∀ config personal_voice_id project_id consent_id prompt_audio_paths
        description http fs,
      envelopeSane (custom_voice_post_personal_voice_from_files config
        personal_voice_id project_id consent_id prompt_audio_paths description
        http fs)) ∧
    (∀ config operation_id http,
      envelopeSane (custom_voice_get_operation config operation_id http)) ∧
    (∀ config personal_voice_id http,
      envelopeSane (custom_voice_get_personal_voice config personal_voice_id
        http)) ∧
    (∀ (config : PersonalVoiceConfig) project_id description display_name msg,
      strBlank config.speech_key = false → strBlank config.speech_region = false →
      strBlank project_id = false →
      custom_voice_create_project config project_id description display_name
          (some (raisingClient msg))
        = { ok := false, error := some msg }) ∧
    (∀ (config : PersonalVoiceConfig) consent_id project_id voice_talent_name
        company_name locale consent_audio_path description msg
        (fs : String → Bool),
      strBlank config.speech_key = false → strBlank config.speech_region = false →
      strBlank consent_id = false → strBlank project_id = false →
      strBlank voice_talent_name = false → strBlank company_name = false →
      strBlank locale = false → fs consent_audio_path = true →
      custom_voice_post_consent_from_file config consent_id project_id
          voice_talent_name company_name locale consent_audio_path description
          (some (raisingClient msg)) fs
        = { ok := false, error := some msg }) ∧
    (∀ (config : PersonalVoiceConfig) consent_id msg,
      strBlank config.speech_key = false → strBlank config.speech_region = false →
      strBlank consent_id = false →
      custom_voice_get_consent config consent_id (some (raisingClient msg))
        = { ok := false, error := some msg }) ∧
    (∀ (config : PersonalVoiceConfig) personal_voice_id project_id consent_id
        (prompt_audio_paths : List String) description msg (fs : String → Bool),
      strBlank config.speech_key = false → strBlank config.speech_region = false →
      strBlank personal_voice_id = false → strBlank project_id = false →
      strBlank consent_id = false → prompt_audio_paths ≠ [] →
      (∀ p ∈ prompt_audio_paths, fs p = true) →
      custom_voice_post_personal_voice_from_files config personal_voice_id
          project_id consent_id prompt_audio_paths description
          (some (raisingClient msg)) fs
        = { ok := false, error := some msg }) ∧
    (∀ (config : PersonalVoiceConfig) operation_id msg,
      strBlank config.speech_key = false → strBlank config.speech_region = false →
      strBlank operation_id = false →
      custom_voice_get_operation config operation_id
          (some (raisingClient msg))
        = { ok := false, error := some msg }) ∧
    (∀ (config : PersonalVoiceConfig) personal_voice_id msg,
      strBlank config.speech_key = false → strBlank config.speech_region = false →
      strBlank personal_voice_id = false →
      custom_voice_get_personal_voice config personal_voice_id
          (some (raisingClient msg))
        = { ok := false, error := some msg }) := by
  refine ⟨custom_voice_create_project_sane,
    custom_voice_post_consent_from_file_sane,
    custom_voice_get_consent_sane,
    custom_voice_post_personal_voice_from_files_sane,
    custom_voice_get_operation_sane,
    custom_voice_get_personal_voice_sane, ?_, ?_, ?_, ?_, ?_, ?_⟩
  · intro config project_id description display_name msg hk hr hp
    unfold custom_voice_create_project
    simp [hk, hr, hp, raisingClient]
  · intro config consent_id project_id voice_talent_name company_name locale
      consent_audio_path description msg fs hk hr h1 h2 h3 h4 h5 hfs
    unfold custom_voice_post_consent_from_file
    simp [hk, hr, h1, h2, h3, h4, h5, hfs, raisingClient]
  · intro config consent_id msg hk hr h1
    unfold custom_voice_get_consent
    simp [hk, hr, h1, raisingClient]
  · intro config personal_voice_id project_id consent_id prompt_audio_paths
      description msg fs hk hr h1 h2 h3 hne hall
    have hfind : prompt_audio_paths.find? (fun p => !fs p) = none := by
      rw [List.find?_eq_none]
      intro p hp
      simp [hall p hp]
    unfold custom_voice_post_personal_voice_from_files
    simp [hk, hr, h1, h2, h3, hne, hfind, raisingClient]
  · intro config operation_id msg hk hr h1
    unfold custom_voice_get_operation
    simp [hk, hr, h1, raisingClient]
  · intro config personal_voice_id msg hk hr h1
    unfold custom_voice_get_personal_voice
    simp [hk, hr, h1, raisingClient]

/-- C5 witness: the sanity clause at a failing concrete call (missing
client) and the raising clause at a concrete raising client. -/
theorem C5_envelope_discipline_witness :
    (custom_voice_create_project
        { speech_key := "k", speech_region := "eastus" } "p1" "" "" none).error
      ≠ none ∧
    custom_voice_get_operation { speech_key := "k", speech_region := "eastus" }
        "op-1" (some (raisingClient "Connection aborted."))
      = { ok := false, error := some "Connection aborted." } :=
  ⟨C5_envelope_discipline.1 { speech_key := "k", speech_region := "eastus" }
      "p1" "" "" none rfl,
   (C5_envelope_discipline.2.2.2.2.2.2.2.2.2.2.1)
      { speech_key := "k", speech_region := "eastus" } "op-1"
      "Connection aborted." (by decide) (by decide) (by decide)⟩

/-! ## C1 — orchestrator behaviour on a terminal `Failed` operation

`custom_voice_wait_for_operation` returns `ok = True` for **both**
terminal statuses, carrying the status in a separate field; the
orchestrator's success branch tests only `wait_result.get("ok")`
(`src/app.py:405`), so a provisioning run whose operation ends in
`Failed` still appends and persists a new profile.  The run below
evaluates the embedded code on exactly that input. -/

/-- Credentials for the Failed-operation run. -/
def c1Cfg : PersonalVoiceConfig := { speech_key := "k", speech_region := "eastus" }

/-- 201 response for the project PUT. -/
def c1ProjectResp : HttpResponse :=
  { status_code := 201
    json := .ok (.jobj [("id", .jstr "p1"), ("kind", .jstr "PersonalVoice")]) }

/-- 201 response for the consent upload. -/
def c1ConsentResp : HttpResponse :=
  { status_code := 201
    operation_id_header := some "op-consent-1"
    json := .ok (.jobj [("id", .jstr "c1"), ("status", .jstr "NotStarted")]) }

/-- 201 response for the personal-voice creation, carrying the
speaker profile id and the operation id. -/
def c1PvResp : HttpResponse :=
  { status_code := 201
    operation_id_header := some "op-pv-1"
    json := .ok (.jobj [("id", .jstr "pv1"),
      ("speakerProfileId", .jstr "spid-123"), ("status", .jstr "NotStarted")]) }

/-- 200 response reporting the *terminal failure* of the operation. -/
def c1OpFailedResp : HttpResponse :=
  { status_code := 200
    json := .ok (.jobj [("id", .jstr "op-pv-1"), ("status", .jstr "Failed")]) }

/-- Client for the Failed-operation run: every step succeeds at the
HTTP level, and polling reports status `Failed`. -/
def c1Client : HttpClient := fun req =>
  if req.method = "PUT" then .ok c1ProjectResp
  else if req.method = "POST" ∧ req.url =
      "https://eastus.api.cognitive.microsoft.com/customvoice/consents/c1" then
    .ok c1ConsentResp
  else if req.method = "POST" then .ok c1PvResp
  else .ok c1OpFailedResp

/-- C1 (the code evaluated at the failing input): the poller reports
the terminal status `Failed` inside an `ok = true` envelope, and the
orchestrator — contrary to the claim — does **not** abort: it appends
the new profile with the returned speaker profile id, selects it, and
persists the store. -/
theorem C1_failed_operation_still_persists :
    (custom_voice_wait_for_operation c1Cfg "op-pv-1" 300 (some c1Client)
        0 [1]).map (fun p => (p.1.ok, p.1.status, p.2))
      = some (true, some "Failed", 1) ∧
    (createPersonalVoiceFlow c1Cfg "p1" "c1" "pv1" "en-US" "Jane Doe" "Contoso"
        "2024-02-01-preview" "consent.wav" ["prompt_1.wav"] (some c1Client)
        (fun _ => true) 0 [1] "2026-10-12").map
        (fun r => (r.abortedAt, r.savedDoc.isSome,
          r.cfg.profiles.map SpeakerProfile.speaker_profile_id,
          r.cfg.selected_profile_id))
      = some (none, true, ["spid-123"], "profile_2026_10_12_1") :=
  ⟨rfl, rfl⟩

end PersonalVoice
